import Mathlib

/-!
Verification of the darwin-py HTTP request mediation layer and release
protocol (`src/darwin/client.py`, `src/darwin/dataset/release.py`) against
its specification. Python values decoded from JSON bodies are embedded as
the inductive `Json`; Python exceptions are embedded as `Except PyErr`;
the network transport is external, so each mediator operation is a
function of the transport `Response` it receives.
-/

/-- Python values decoded from a JSON body (`response.json()` results and
request payloads). `num` covers the integer numbers the service uses. -/
inductive Json where
  | null : Json
  | bool (b : Bool) : Json
  | num (n : Int) : Json
  | str (s : String) : Json
  | arr (elems : List Json) : Json
  | obj (fields : List (String × Json)) : Json
  deriving Repr

mutual

/-- Structural equality of decoded values, Python `==` on JSON-decoded data. -/
def Json.beq : Json → Json → Bool
  | .null, .null => true
  | .bool a, .bool b => a == b
  | .num a, .num b => a == b
  | .str a, .str b => a == b
  | .arr a, .arr b => Json.beqList a b
  | .obj a, .obj b => Json.beqFields a b
  | _, _ => false

def Json.beqList : List Json → List Json → Bool
  | [], [] => true
  | x :: xs, y :: ys => Json.beq x y && Json.beqList xs ys
  | _, _ => false

def Json.beqFields : List (String × Json) → List (String × Json) → Bool
  | [], [] => true
  | (k1, v1) :: xs, (k2, v2) :: ys => k1 == k2 && Json.beq v1 v2 && Json.beqFields xs ys
  | _, _ => false

end

mutual

theorem Json.beq_iff_eq : ∀ a b : Json, Json.beq a b = true ↔ a = b
  | .null, .null => by simp [Json.beq]
  | .bool _, .bool _ => by simp [Json.beq]
  | .num _, .num _ => by simp [Json.beq]
  | .str _, .str _ => by simp [Json.beq]
  | .arr x, .arr y => by simp [Json.beq, Json.beqList_iff_eq x y]
  | .obj x, .obj y => by simp [Json.beq, Json.beqFields_iff_eq x y]
  | .null, .bool _ | .null, .num _ | .null, .str _ | .null, .arr _ | .null, .obj _
  | .bool _, .null | .bool _, .num _ | .bool _, .str _ | .bool _, .arr _ | .bool _, .obj _
  | .num _, .null | .num _, .bool _ | .num _, .str _ | .num _, .arr _ | .num _, .obj _
  | .str _, .null | .str _, .bool _ | .str _, .num _ | .str _, .arr _ | .str _, .obj _
  | .arr _, .null | .arr _, .bool _ | .arr _, .num _ | .arr _, .str _ | .arr _, .obj _
  | .obj _, .null | .obj _, .bool _ | .obj _, .num _ | .obj _, .str _ | .obj _, .arr _ =>
    by simp [Json.beq]

theorem Json.beqList_iff_eq : ∀ a b : List Json, Json.beqList a b = true ↔ a = b
  | [], [] => by simp [Json.beqList]
  | [], _ :: _ => by simp [Json.beqList]
  | _ :: _, [] => by simp [Json.beqList]
  | x :: xs, y :: ys => by
    simp [Json.beqList, Json.beq_iff_eq x y, Json.beqList_iff_eq xs ys]

theorem Json.beqFields_iff_eq :
    ∀ a b : List (String × Json), Json.beqFields a b = true ↔ a = b
  | [], [] => by simp [Json.beqFields]
  | [], _ :: _ => by simp [Json.beqFields]
  | _ :: _, [] => by simp [Json.beqFields]
  | (k1, v1) :: xs, (k2, v2) :: ys => by
    simp [Json.beqFields, Json.beq_iff_eq v1 v2, Json.beqFields_iff_eq xs ys, and_assoc]

end

instance : DecidableEq Json := fun a b =>
  decidable_of_iff (Json.beq a b = true) (Json.beq_iff_eq a b)

/-- Modelled from the spec: `src/darwin/dataset/identifier.py` is not under
`src/`. The spec describes a Dataset Identifier as "a parsed triple
(team slug [optional], dataset slug, version [optional]) from a single
string of the form `team/slug:version`". -/
structure DatasetIdentifier where
  team_slug : Option String
  dataset_slug : String
  version : Option String
  deriving DecidableEq, Repr

/-- Split a character list at every occurrence of a separator character. -/
def splitOnChar (c : Char) : List Char → List (List Char)
  | [] => [[]]
  | x :: xs =>
    match splitOnChar c xs with
    | [] => [[]]
    | r :: rs => if x == c then [] :: r :: rs else (x :: r) :: rs

/-- Modelled from the spec: parsing of the single string form
`team/slug:version` with the team part and the version part optional. -/
def DatasetIdentifier.parse (s : String) : DatasetIdentifier :=
  let parts := (splitOnChar '/' s.toList).map String.mk
  let teamRest : Option String × String :=
    match parts with
    | [a, b] => (some a, b)
    | _ => (none, s)
  match (splitOnChar ':' teamRest.2.toList).map String.mk with
  | [d, v] => { team_slug := teamRest.1, dataset_slug := d, version := some v }
  | _ => { team_slug := teamRest.1, dataset_slug := teamRest.2, version := none }

/-- Argument carried by a `NotFound` error: `Client.get` passes a URL
string, `Client.get_remote_dataset` passes the parsed dataset identifier. -/
inductive NotFoundArg where
  | url (s : String) : NotFoundArg
  | identifier (d : DatasetIdentifier) : NotFoundArg
  deriving DecidableEq, Repr

/-- Python exceptions that the embedded code can raise: the five named
error kinds of `darwin.exceptions`, the builtin exceptions the code can hit
(`ValueError` from JSON decoding, `KeyError`/`TypeError`/`IndexError` from
subscripts and calls), and `domainError` for whatever a registered POST
error handler raises. -/
inductive PyErr where
  | unauthorized : PyErr
  | notFound (arg : NotFoundArg) : PyErr
  | insufficientStorage : PyErr
  | invalidLogin : PyErr
  | missingConfig : PyErr
  | valueError : PyErr
  | keyError (k : String) : PyErr
  | typeError : PyErr
  | indexError : PyErr
  | domainError (msg : String) : PyErr
  deriving DecidableEq, Repr

/-- Python subscript `j[k]` with a string key: value for a present key of a
dict, `KeyError` for an absent key, `TypeError` on a non-dict. -/
def Json.getKey : Json → String → Except PyErr Json
  | .obj fields, k =>
    match fields.find? (fun f => f.1 == k) with
    | some f => .ok f.2
    | none => .error (.keyError k)
  | _, _ => .error .typeError

/-- Python `len(...)`: length of a list, string or dict, `TypeError` otherwise. -/
def Json.pyLen : Json → Except PyErr Int
  | .arr xs => .ok xs.length
  | .str s => .ok s.length
  | .obj fields => .ok fields.length
  | _ => .error .typeError

/-- Python `str(...)` on a decoded value, as interpolated by an f-string.
Scalars render exactly as Python renders them; container rendering is
abbreviated, as no code under verification formats a container. -/
def Json.pyStr : Json → String
  | .str s => s
  | .num n => toString n
  | .bool true => "True"
  | .bool false => "False"
  | .null => "None"
  | .arr _ => "[...]"
  | .obj _ => "\x7b...\x7d"

/-- A transport response. `body = some j` means the body text decodes to
the value `j`; `body = none` means `response.json()` raises `ValueError`.
`text` is the raw body text. -/
structure Response where
  status_code : Nat
  body : Option Json
  text : String
  deriving DecidableEq, Repr

/-- Python `response.json()`: the decoded body, or `ValueError` when the
body is not JSON-parseable. -/
def Response.json (r : Response) : Except PyErr Json :=
  match r.body with
  | some j => .ok j
  | none => .error .valueError

/-- Modelled from the spec: `darwin.utils.urljoin` is not under `src/`; the
spec speaks of "the joined URL" of its parts, so the parts are joined with
a single slash, slashes at the seam stripped. -/
def urljoin (a b : String) : String :=
  let strip : String → String := fun s =>
    String.mk (((s.toList.dropWhile (· == '/')).reverse.dropWhile (· == '/')).reverse)
  strip a ++ "/" ++ strip b

/-- The client facade state set up by `Client.__init__`: `url` is
`config.get("global/api_endpoint")`, `base_url` is
`config.get("global/base_url")`, `default_team` the resolved default team. -/
structure Client where
  url : String
  base_url : String
  default_team : String
  deriving DecidableEq, Repr

/-- Embeds `Client._decode_response`: the decoded body, or on decode
failure the synthesized error mapping (the `debug` print changes nothing). -/
def Client._decode_response (r : Response) : Json :=
  match r.body with
  | some j => j
  | none =>
    .obj [("error", .str "Response is not JSON encoded"),
          ("status_code", .num r.status_code),
          ("text", .str r.text)]

/-- Result of `Client.get`: the raw transport response when the raw-mode
flag is set, the decoded body otherwise. -/
inductive GetValue where
  | raw (r : Response) : GetValue
  | payload (j : Json) : GetValue
  deriving DecidableEq, Repr

/-- Embeds `Client.get`: 401 raises `Unauthorized`, 404 raises `NotFound`
carrying `urljoin(self.url, endpoint)`, otherwise the raw response or the
decoded body. -/
def Client.get (c : Client) (endpoint : String) (raw : Bool) (debug : Bool)
    (response : Response) : Except PyErr GetValue :=
  if response.status_code = 401 then .error .unauthorized
  else if response.status_code = 404 then
    .error (.notFound (.url (urljoin c.url endpoint)))
  else if raw then .ok (.raw response)
  else .ok (.payload (Client._decode_response response))

/-- Embeds `Client.put`: 401 raises `Unauthorized`; on 429 the body is
decoded (`response.json()`, may raise `ValueError`) and its
`errors.code` field read (may raise `KeyError`/`TypeError`), and
`InsufficientStorage` is raised exactly when that field equals the string
`INSUFFICIENT_REMAINING_STORAGE`; otherwise the decoded body is returned. -/
def Client.put (c : Client) (endpoint : String) (payload : Json) (debug : Bool)
    (response : Response) : Except PyErr Json :=
  if response.status_code = 401 then .error .unauthorized
  else if response.status_code = 429 then
    match response.json with
    | .error e => .error e
    | .ok j =>
      match j.getKey "errors" with
      | .error e => .error e
      | .ok errs =>
        match errs.getKey "code" with
        | .error e => .error e
        | .ok code =>
          if code = .str "INSUFFICIENT_REMAINING_STORAGE" then .error .insufficientStorage
          else .ok (Client._decode_response response)
  else .ok (Client._decode_response response)

/-- A POST error handler: called with the status code and the decoded
body; `some msg` means the handler raises a domain error, `none` that it
returns normally. -/
def ErrorHandler : Type := Nat → Json → Option String

/-- The handler loop of `Client.post`: each handler is called with
`(response.status_code, response.json())`; `response.json()` itself raises
on an unparseable body, and the first handler that raises short-circuits
the rest. -/
def runHandlers (handlers : List ErrorHandler) (r : Response) : Except PyErr Unit :=
  match handlers with
  | [] => .ok ()
  | h :: rest =>
    match r.json with
    | .error e => .error e
    | .ok j =>
      match h r.status_code j with
      | some msg => .error (.domainError msg)
      | none => runHandlers rest r

/-- Embeds `Client.post`: a `None` payload becomes the empty mapping and a
`None` handler list the empty list; 401 raises `Unauthorized`; on any
non-200 status the registered handlers run in order, then the debug print
(whose f-string evaluates `response.json()`, raising on an unparseable
body); finally the decoded body is returned. -/
def Client.post (c : Client) (endpoint : String) (payload : Option Json)
    (error_handlers : Option (List ErrorHandler)) (debug : Bool)
    (response : Response) : Except PyErr Json :=
  let handlers := error_handlers.getD []
  if response.status_code = 401 then .error .unauthorized
  else if response.status_code ≠ 200 then
    match runHandlers handlers response with
    | .error e => .error e
    | .ok _ =>
      if debug then
        match response.json with
        | .error e => .error e
        | .ok _ => .ok (Client._decode_response response)
      else .ok (Client._decode_response response)
  else .ok (Client._decode_response response)

/-- A remote dataset as constructed by `Client.list_remote_datasets` from a
listing payload entry. -/
structure RemoteDataset where
  name : String
  slug : String
  team : Option String
  dataset_id : Int
  image_count : Int
  progress : Json
  deriving DecidableEq, Repr

/-- The argument of `Client.get_remote_dataset`: a raw string or a
pre-parsed identifier. -/
inductive DatasetIdInput where
  | fromString (s : String) : DatasetIdInput
  | fromIdentifier (d : DatasetIdentifier) : DatasetIdInput
  deriving DecidableEq, Repr

/-- Python truthiness of the optional team slug: `None` and the empty
string are falsy. -/
def pyFalsyOptStr : Option String → Bool
  | none => true
  | some s => s.isEmpty

/-- The identifier-normalisation prefix of `Client.get_remote_dataset`:
parse a raw string, then substitute the client's default team when the
team slug is falsy. -/
def resolveIdentifier (c : Client) (input : DatasetIdInput) : DatasetIdentifier :=
  let di :=
    match input with
    | .fromString s => DatasetIdentifier.parse s
    | .fromIdentifier d => d
  if pyFalsyOptStr di.team_slug then { di with team_slug := some c.default_team } else di

/-- Embeds `Client.get_remote_dataset`. The remote listing for the
resolved team (what `list_remote_datasets` yields over the network) is the
`listing` argument. Filters the listing by dataset slug; raises `NotFound`
carrying the identifier on zero matches, returns the first match otherwise. -/
def Client.get_remote_dataset (c : Client) (input : DatasetIdInput)
    (listing : List RemoteDataset) : Except PyErr RemoteDataset :=
  let di := resolveIdentifier c input
  let matching := listing.filter (fun d => d.slug == di.dataset_slug)
  match matching with
  | [] => .error (.notFound (.identifier di))
  | d :: _ => .ok d

/-- The list comprehension of `Client.from_api_key`:
`[team["slug"] for team in data["teams"] if team["id"] == team_id]`, each
subscript raising as in Python. -/
def matchingSlugs (teams : List Json) (team_id : Json) : Except PyErr (List Json) :=
  match teams with
  | [] => .ok []
  | t :: rest =>
    match t.getKey "id" with
    | .error e => .error e
    | .ok tid =>
      if tid = team_id then
        match t.getKey "slug" with
        | .error e => .error e
        | .ok s =>
          match matchingSlugs rest team_id with
          | .error e => .error e
          | .ok restSlugs => .ok (s :: restSlugs)
      else matchingSlugs rest team_id

/-- Embeds the token-info handling of `Client.from_api_key`: any non-200
status raises `InvalidLogin`; on 200 the body is decoded and the slug of
the first team whose id equals `selected_team.id` is taken by indexing the
comprehension's result at 0 (IndexError on an empty result). The returned
value is the slug installed as the bootstrapped client's `default_team`
(the config synthesis around it is the external Config collaborator).
Iteration of `data["teams"]` is modelled for JSON arrays; a non-array
raises `TypeError`. -/
def Client.from_api_key (response : Response) : Except PyErr Json :=
  if response.status_code ≠ 200 then .error .invalidLogin
  else
    match response.json with
    | .error e => .error e
    | .ok data =>
      match data.getKey "selected_team" with
      | .error e => .error e
      | .ok sel =>
        match sel.getKey "id" with
        | .error e => .error e
        | .ok team_id =>
          match data.getKey "teams" with
          | .error e => .error e
          | .ok (.arr teams) =>
            (match matchingSlugs teams team_id with
             | .error e => .error e
             | .ok [] => .error .indexError
             | .ok (s :: _) => .ok s)
          | .ok _ => .error .typeError

/-- Python `str` check before `datetime.strptime`: a non-string argument
raises `TypeError`. -/
def Json.asStr : Json → Except PyErr String
  | .str s => .ok s
  | _ => .error .typeError

/-- Shape of the fixed timezone-aware format `%Y-%m-%dT%H:%M:%S%z` used by
`Release.parse_json`: a four-digit year, two-digit month, day, hour, minute
and second with the literal separators, then a sign and a four-digit UTC
offset. -/
def matchesStrptimeTz (s : String) : Bool :=
  match s.toList with
  | [y1, y2, y3, y4, sep1, mo1, mo2, sep2, d1, d2, t,
     h1, h2, c1, mi1, mi2, c2, s1, s2, sg, z1, z2, z3, z4] =>
    y1.isDigit && y2.isDigit && y3.isDigit && y4.isDigit && sep1 == '-' &&
    mo1.isDigit && mo2.isDigit && sep2 == '-' && d1.isDigit && d2.isDigit &&
    t == 'T' && h1.isDigit && h2.isDigit && c1 == ':' && mi1.isDigit &&
    mi2.isDigit && c2 == ':' && s1.isDigit && s2.isDigit &&
    (sg == '+' || sg == '-') && z1.isDigit && z2.isDigit && z3.isDigit && z4.isDigit
  | _ => false

/-- Models the external stdlib call
`datetime.datetime.strptime(s, "%Y-%m-%dT%H:%M:%S%z")`: `ValueError` when
the text does not match the format; a parsed timestamp is represented by
its source text. -/
def strptimeTz (s : String) : Except PyErr String :=
  if matchesStrptimeTz s then .ok s else .error .valueError

/-- The `Release` record, fields exactly those set by `Release.__init__`.
Field values originate in a decoded payload, so they are `Json`; the two
slugs are the string arguments of `parse_json`, and `export_date` the
parsed timestamp. -/
structure Release where
  dataset_slug : String
  team_slug : String
  version : Json
  url : Json
  export_date : String
  image_count : Json
  class_count : Json
  available : Json
  latest : Json
  deriving DecidableEq, Repr

/-- Embeds `Release.parse_json`. The export date is parsed first (fatal on
mismatch). If `download_url` is `None`, the source calls the constructor
without its required `url` argument, which Python rejects with
`TypeError` before any release is built. Otherwise the available release
is built, with `version` read from the payload's `name` key, counts from
the nested `metadata` object, and `latest` passed through. -/
def Release.parse_json (dataset_slug team_slug : String) (payload : Json) :
    Except PyErr Release := do
  let ins ← payload.getKey "inserted_at"
  let insStr ← ins.asStr
  let export_date ← strptimeTz insStr
  let du ← payload.getKey "download_url"
  if du = Json.null then
    .error .typeError
  else do
    let v ← payload.getKey "name"
    let md1 ← payload.getKey "metadata"
    let ni ← md1.getKey "num_images"
    let md2 ← payload.getKey "metadata"
    let ac ← md2.getKey "annotation_classes"
    let acLen ← ac.pyLen
    let lt ← payload.getKey "latest"
    pure { dataset_slug := dataset_slug, team_slug := team_slug, version := v,
           url := du, export_date := export_date, image_count := ni,
           class_count := .num acLen, available := .bool true, latest := lt }

/-- The f-string of `Release.identifier`:
`f"{self.team_slug}/{self.dataset_slug}:{self.version}"`. -/
def Release.identifierString (r : Release) : String :=
  r.team_slug ++ "/" ++ r.dataset_slug ++ ":" ++ r.version.pyStr

/-- Embeds the `Release.identifier` property: a `DatasetIdentifier`
constructed from the formatted string, computed on demand (no stored
field). -/
def Release.identifier (r : Release) : DatasetIdentifier :=
  DatasetIdentifier.parse r.identifierString

/-- Concrete client used by the witnesses: the default service URLs and a
default team. -/
def clientW : Client :=
  { url := "https://darwin.v7labs.com/api/",
    base_url := "https://darwin.v7labs.com",
    default_team := "acme" }

/-- A 401 response with a decodable body. -/
def r401W : Response := { status_code := 401, body := some (.obj []), text := "denied" }

/-- A 404 response. -/
def r404W : Response := { status_code := 404, body := none, text := "missing" }

/-- A 429 response whose body is not JSON-parseable. -/
def rBad429W : Response := { status_code := 429, body := none, text := "rate limited" }

/-- A 500 response whose body is not JSON-parseable. -/
def rBad500W : Response := { status_code := 500, body := none, text := "oops" }

/-- A 429 response carrying the storage error code. -/
def r429StorageW : Response :=
  { status_code := 429,
    body := some (.obj [("errors", .obj [("code", .str "INSUFFICIENT_REMAINING_STORAGE")])]),
    text := "" }

/-- A 429 response carrying a different error code. -/
def r429OtherW : Response :=
  { status_code := 429,
    body := some (.obj [("errors", .obj [("code", .str "RATE_LIMITED")])]),
    text := "" }

/-- C2: for every request issued through the mediator's GET, PUT or POST
operation, a transport response with status code 401 makes the operation
raise `Unauthorized` and return no payload, regardless of the verb, the
response body, the raw flag, and any registered error handlers. -/
theorem http_401_raises_unauthorized (c : Client) (endpoint : String)
    (raw debug : Bool) (payload : Json) (payloadO : Option Json)
    (handlers : Option (List ErrorHandler)) (r : Response)
    (h : r.status_code = 401) :
    Client.get c endpoint raw debug r = .error .unauthorized ∧
    Client.put c endpoint payload debug r = .error .unauthorized ∧
    Client.post c endpoint payloadO handlers debug r = .error .unauthorized := by
  refine ⟨?_, ?_, ?_⟩ <;> simp [Client.get, Client.put, Client.post, h]

theorem http_401_raises_unauthorized_witness :
    r401W.status_code = 401 ∧
    (Client.get clientW "/datasets" false false r401W = .error .unauthorized ∧
     Client.put clientW "/datasets" (.obj []) false r401W = .error .unauthorized ∧
     Client.post clientW "/datasets" none none false r401W = .error .unauthorized) :=
  ⟨rfl, http_401_raises_unauthorized clientW "/datasets" false false (.obj []) none none
    r401W rfl⟩

/-- C4: a PUT whose response has status 429 and whose decoded body carries
an `errors.code` field raises `InsufficientStorage` exactly when that
field equals `INSUFFICIENT_REMAINING_STORAGE`; on any other code it does
not raise and returns the decoded body. -/
theorem put_429_insufficient_storage (c : Client) (endpoint : String)
    (payload : Json) (debug : Bool) (r : Response) (j errs code : Json)
    (hs : r.status_code = 429) (hb : r.body = some j)
    (he : j.getKey "errors" = .ok errs) (hc : errs.getKey "code" = .ok code) :
    (code = .str "INSUFFICIENT_REMAINING_STORAGE" →
      Client.put c endpoint payload debug r = .error .insufficientStorage) ∧
    (code ≠ .str "INSUFFICIENT_REMAINING_STORAGE" →
      Client.put c endpoint payload debug r = .ok j) := by
  constructor <;> intro h <;>
    simp [Client.put, Response.json, Client._decode_response, hs, hb, he, hc, h]

theorem put_429_insufficient_storage_witness :
    (r429StorageW.status_code = 429 ∧
     Client.put clientW "/e" (.obj []) false r429StorageW = .error .insufficientStorage) ∧
    (r429OtherW.status_code = 429 ∧
     Client.put clientW "/e" (.obj []) false r429OtherW =
       .ok (.obj [("errors", .obj [("code", .str "RATE_LIMITED")])])) :=
  ⟨⟨rfl,
    (put_429_insufficient_storage clientW "/e" (.obj []) false r429StorageW
      (.obj [("errors", .obj [("code", .str "INSUFFICIENT_REMAINING_STORAGE")])])
      (.obj [("code", .str "INSUFFICIENT_REMAINING_STORAGE")])
      (.str "INSUFFICIENT_REMAINING_STORAGE") rfl rfl rfl rfl).1 rfl⟩,
   ⟨rfl,
    (put_429_insufficient_storage clientW "/e" (.obj []) false r429OtherW
      (.obj [("errors", .obj [("code", .str "RATE_LIMITED")])])
      (.obj [("code", .str "RATE_LIMITED")])
      (.str "RATE_LIMITED") rfl rfl rfl rfl).2 (by decide)⟩⟩

/-- C5 counterexample: with the default configuration the api-endpoint URL
(`Client.url`) and `base_url` differ, and the `NotFound` raised by a GET on
404 carries the join of the api-endpoint URL with the endpoint, which is
not the join of `base_url` with the endpoint. -/
theorem get_404_carries_api_url_counterexample :
    Client.get clientW "/datasets" false false r404W =
      .error (.notFound (.url "https://darwin.v7labs.com/api/datasets")) ∧
    urljoin clientW.base_url "/datasets" ≠ "https://darwin.v7labs.com/api/datasets" :=
  ⟨rfl, by decide⟩

/-- C5 (amended): for every GET request whose response has status 404, the
operation raises `NotFound` carrying the joined URL of the client's
api-endpoint URL (the `url` attribute, `config.get("global/api_endpoint")`)
and the endpoint. -/
theorem get_404_raises_not_found (c : Client) (endpoint : String)
    (raw debug : Bool) (r : Response) (h404 : r.status_code = 404) :
    Client.get c endpoint raw debug r =
      .error (.notFound (.url (urljoin c.url endpoint))) := by
  simp [Client.get, h404]

theorem get_404_raises_not_found_witness :
    r404W.status_code = 404 ∧
    Client.get clientW "/datasets" false false r404W =
      .error (.notFound (.url (urljoin clientW.url "/datasets"))) :=
  ⟨rfl, get_404_raises_not_found clientW "/datasets" false false r404W rfl⟩

/-- C3 counterexample: a PUT whose 429 response has an unparseable body
raises the JSON decode error (`ValueError` from `response.json()` in the
429 inspection) instead of returning the synthesized mapping. -/
theorem put_429_unparseable_body_raises :
    Client.put clientW "/datasets" (.obj []) false rBad429W = .error .valueError := rfl

/-- C3 (amended): for every response whose body is not parseable, the
mediator returns the synthesized mapping
`("error", "Response is not JSON encoded"), ("status_code", code),
("text", raw)` rather than raising, in exactly these cases: a GET with
the raw flag unset (after 401/404 raise), a PUT whose status is not 401
and not 429 (a 429 decodes the body first and raises the decode error),
and a POST whose status is not 401 with no registered error handlers and
the debug flag off (a handler call or the debug print decodes the body
first and raises the decode error). -/
theorem unparseable_body_synthesized (c : Client) (endpoint : String)
    (payload : Json) (debug : Bool) (r : Response)
    (hb : r.body = none) (h401 : r.status_code ≠ 401) :
    (r.status_code ≠ 404 →
      Client.get c endpoint false debug r =
        .ok (.payload (.obj [("error", .str "Response is not JSON encoded"),
                             ("status_code", .num r.status_code),
                             ("text", .str r.text)]))) ∧
    (r.status_code ≠ 429 →
      Client.put c endpoint payload debug r =
        .ok (.obj [("error", .str "Response is not JSON encoded"),
                   ("status_code", .num r.status_code),
                   ("text", .str r.text)])) ∧
    (Client.post c endpoint (some payload) (some []) false r =
      .ok (.obj [("error", .str "Response is not JSON encoded"),
                 ("status_code", .num r.status_code),
                 ("text", .str r.text)])) := by
  refine ⟨fun h404 => ?_, fun h429 => ?_, ?_⟩
  · simp [Client.get, Client._decode_response, hb, h401, h404]
  · simp [Client.put, Client._decode_response, hb, h401, h429]
  · by_cases h200 : r.status_code = 200 <;>
      simp [Client.post, runHandlers, Client._decode_response, hb, h401, h200]

theorem unparseable_body_synthesized_witness :
    rBad500W.body = none ∧ rBad500W.status_code ≠ 401 ∧ rBad500W.status_code ≠ 404 ∧
    Client.get clientW "/e" false false rBad500W =
      .ok (.payload (.obj [("error", .str "Response is not JSON encoded"),
                           ("status_code", .num 500),
                           ("text", .str "oops")])) :=
  ⟨rfl, by decide, by decide,
   (unparseable_body_synthesized clientW "/e" (.obj []) false rBad500W rfl
     (by decide)).1 (by decide)⟩

/-- A release payload whose `download_url` is null, `version` "1.0". -/
def payloadNullUrlW : Json :=
  .obj [("inserted_at", .str "2020-01-01T00:00:00+0000"),
        ("download_url", .null),
        ("version", .str "1.0"),
        ("latest", .bool false)]

/-- A release payload whose `download_url` is set, matching the spec's
available-release example. -/
def payloadAvailableW : Json :=
  .obj [("inserted_at", .str "2020-01-01T00:00:00+0000"),
        ("download_url", .str "http://x"),
        ("name", .str "v2"),
        ("latest", .bool true),
        ("metadata", .obj [("num_images", .num 10),
                           ("annotation_classes",
                            .arr [.str "a", .str "b", .str "c"])])]

/-- C1 (code bug): on a payload whose `download_url` is null,
`Release.parse_json` does not yield the unavailable release the claim
describes — the source omits the required `url` argument in that branch's
constructor call, so Python raises `TypeError` before any release exists.
The non-null branch behaves exactly as the claim states: `version` from
the `name` key, counts from the metadata, the URL, and `latest` passed
through. -/
theorem parse_json_null_url_type_error :
    Release.parse_json "cats" "acme" payloadNullUrlW = .error .typeError ∧
    Release.parse_json "cats" "acme" payloadAvailableW =
      .ok { dataset_slug := "cats", team_slug := "acme", version := .str "v2",
            url := .str "http://x", export_date := "2020-01-01T00:00:00+0000",
            image_count := .num 10, class_count := .num 3,
            available := .bool true, latest := .bool true } :=
  ⟨rfl, rfl⟩

/-- The release built from the spec's identifier example. -/
def releaseAcmeW : Release :=
  { dataset_slug := "cats", team_slug := "acme", version := .str "v2",
    url := .str "http://x", export_date := "2020-01-01T00:00:00+0000",
    image_count := .num 10, class_count := .num 3,
    available := .bool true, latest := .bool true }

/-- C9: for every release whose version is a string `v`, the identifier is
computed on demand from the string `"{team_slug}/{dataset_slug}:{version}"`;
with team slug `acme`, dataset slug `cats` and version `v2` that string is
exactly `acme/cats:v2`. -/
theorem release_identifier_format (r : Release) (v : String)
    (hv : r.version = .str v) :
    r.identifierString = r.team_slug ++ "/" ++ r.dataset_slug ++ ":" ++ v ∧
    r.identifier =
      DatasetIdentifier.parse (r.team_slug ++ "/" ++ r.dataset_slug ++ ":" ++ v) := by
  have h : r.identifierString = r.team_slug ++ "/" ++ r.dataset_slug ++ ":" ++ v := by
    simp [Release.identifierString, hv, Json.pyStr]
  exact ⟨h, by simp [Release.identifier, h]⟩

theorem release_identifier_format_witness :
    releaseAcmeW.version = .str "v2" ∧
    releaseAcmeW.identifierString = "acme/cats:v2" :=
  ⟨rfl, (release_identifier_format releaseAcmeW "v2" rfl).1⟩

/-- First of two datasets sharing the slug `cats`. -/
def dsCatFirstW : RemoteDataset :=
  { name := "Cats", slug := "cats", team := some "acme", dataset_id := 1,
    image_count := 5, progress := .num 0 }

/-- Second of two datasets sharing the slug `cats`. -/
def dsCatSecondW : RemoteDataset :=
  { name := "Cats again", slug := "cats", team := some "acme", dataset_id := 2,
    image_count := 6, progress := .num 0 }

/-- A listing with two datasets of the same slug. -/
def listingW : List RemoteDataset := [dsCatFirstW, dsCatSecondW]

/-- C6: for every identifier (raw string or pre-parsed) and remote listing,
`get_remote_dataset` raises `NotFound` carrying the resolved identifier
when no dataset's slug matches the identifier's dataset slug, and returns
the first match in listing order otherwise, even when several match. -/
theorem get_remote_dataset_first_match (c : Client) (input : DatasetIdInput)
    (listing : List RemoteDataset) :
    (listing.filter (fun d => d.slug == (resolveIdentifier c input).dataset_slug) = [] →
      Client.get_remote_dataset c input listing =
        .error (.notFound (.identifier (resolveIdentifier c input)))) ∧
    (∀ d rest,
      listing.filter (fun d => d.slug == (resolveIdentifier c input).dataset_slug) =
        d :: rest →
      Client.get_remote_dataset c input listing = .ok d) := by
  constructor
  · intro h; simp [Client.get_remote_dataset, h]
  · intro d rest h; simp [Client.get_remote_dataset, h]

theorem get_remote_dataset_first_match_witness :
    listingW.filter
        (fun d =>
          d.slug == (resolveIdentifier clientW (.fromString "acme/cats")).dataset_slug) =
      dsCatFirstW :: [dsCatSecondW] ∧
    Client.get_remote_dataset clientW (.fromString "acme/cats") listingW =
      .ok dsCatFirstW :=
  ⟨by decide,
   (get_remote_dataset_first_match clientW (.fromString "acme/cats") listingW).2
     dsCatFirstW [dsCatSecondW] (by decide)⟩

/-- When every registered handler returns normally on the decoded body,
the handler loop returns normally. -/
theorem runHandlers_all_none (r : Response) (j : Json) (hb : r.body = some j)
    (handlers : List ErrorHandler)
    (hnone : ∀ g ∈ handlers, g r.status_code j = none) :
    runHandlers handlers r = .ok () := by
  induction handlers with
  | nil => rfl
  | cons h rest ih =>
    have h1 : h r.status_code j = none := hnone h (by simp)
    have h2 : runHandlers rest r = .ok () :=
      ih (fun g hg => hnone g (by simp [hg]))
    simp [runHandlers, Response.json, hb, h1, h2]

/-- The first handler that raises short-circuits the rest of the loop. -/
theorem runHandlers_first_raise (r : Response) (j : Json) (hb : r.body = some j)
    (pre : List ErrorHandler) (h : ErrorHandler) (rest : List ErrorHandler)
    (msg : String)
    (hpre : ∀ g ∈ pre, g r.status_code j = none)
    (hh : h r.status_code j = some msg) :
    runHandlers (pre ++ h :: rest) r = .error (.domainError msg) := by
  induction pre with
  | nil => simp [runHandlers, Response.json, hb, hh]
  | cons g gs ih =>
    have h1 : g r.status_code j = none := hpre g (by simp)
    have h2 := ih (fun g2 hg2 => hpre g2 (by simp [hg2]))
    simp [runHandlers, Response.json, hb, h1, h2]

/-- C7: for every POST whose response body decodes to `j`: on status 200 no
handler is ever invoked and the decoded body is returned whatever the
handlers are; on a non-200 (non-401) status the handlers run in
registration order on `(status code, decoded body)`: the first one that
raises short-circuits the rest and its error propagates, and if none
raises the operation falls through to returning the decoded body. -/
theorem post_error_handler_protocol (c : Client) (endpoint : String)
    (payload : Option Json) (debug : Bool) (r : Response) (j : Json)
    (hb : r.body = some j) (h401 : r.status_code ≠ 401) :
    (r.status_code = 200 → ∀ handlers : Option (List ErrorHandler),
      Client.post c endpoint payload handlers debug r = .ok j) ∧
    (r.status_code ≠ 200 →
      ∀ (pre : List ErrorHandler) (h : ErrorHandler) (rest : List ErrorHandler)
        (msg : String),
        (∀ g ∈ pre, g r.status_code j = none) → h r.status_code j = some msg →
        Client.post c endpoint payload (some (pre ++ h :: rest)) debug r =
          .error (.domainError msg)) ∧
    (r.status_code ≠ 200 → ∀ handlers : List ErrorHandler,
      (∀ g ∈ handlers, g r.status_code j = none) →
      Client.post c endpoint payload (some handlers) debug r = .ok j) := by
  refine ⟨fun h200 handlers => ?_, fun h200 pre h rest msg hpre hh => ?_,
          fun h200 handlers hnone => ?_⟩
  · simp [Client.post, Client._decode_response, hb, h401, h200]
  · have := runHandlers_first_raise r j hb pre h rest msg hpre hh
    simp [Client.post, Client._decode_response, hb, h401, h200, this]
  · have := runHandlers_all_none r j hb handlers hnone
    simp [Client.post, Client._decode_response, Response.json, hb, h401, h200, this]

/-- A 400 response with a decodable body. -/
def r400W : Response :=
  { status_code := 400,
    body := some (.obj [("errors", .obj [("name", .str "has already been taken")])]),
    text := "" }

/-- A handler in the shape of `darwin.validators.name_taken`: raises the
name-conflict domain error on a 400 body. -/
def nameTakenW : ErrorHandler := fun code _ =>
  if code = 400 then some "name already taken" else none

theorem post_error_handler_protocol_witness :
    r400W.body = some (.obj [("errors", .obj [("name", .str "has already been taken")])]) ∧
    r400W.status_code ≠ 401 ∧ r400W.status_code ≠ 200 ∧
    nameTakenW r400W.status_code
        (.obj [("errors", .obj [("name", .str "has already been taken")])]) =
      some "name already taken" ∧
    Client.post clientW "/datasets" (some (.obj [("name", .str "x")]))
        (some ([] ++ nameTakenW :: [])) false r400W =
      .error (.domainError "name already taken") :=
  ⟨rfl, by decide, by decide, rfl,
   (post_error_handler_protocol clientW "/datasets" (some (.obj [("name", .str "x")]))
       false r400W
       (.obj [("errors", .obj [("name", .str "has already been taken")])])
       rfl (by decide)).2.1 (by decide)
     [] nameTakenW [] "name already taken" (by simp) rfl⟩

/-- The token-info response of the spec's bootstrap example:
`selected_team.id = 7`, one team with id 7 and slug `acme`. -/
def tokenInfoOkW : Response :=
  { status_code := 200,
    body := some (.obj [("selected_team", .obj [("id", .num 7)]),
                        ("teams", .arr [.obj [("id", .num 7), ("slug", .str "acme")]])]),
    text := "" }

/-- C8: an API-key bootstrap receiving any non-200 status from the
token-info endpoint raises `InvalidLogin`; receiving 200 with
`selected_team.id = 7` and `teams = [(id 7, slug acme)]` produces a client
whose `default_team` is `acme`. -/
theorem from_api_key_bootstrap (r : Response) (h : r.status_code ≠ 200) :
    Client.from_api_key r = .error .invalidLogin ∧
    Client.from_api_key tokenInfoOkW = .ok (.str "acme") := by
  refine ⟨?_, rfl⟩
  simp [Client.from_api_key, h]

theorem from_api_key_bootstrap_witness :
    rBad500W.status_code ≠ 200 ∧
    (Client.from_api_key rBad500W = .error .invalidLogin ∧
     Client.from_api_key tokenInfoOkW = .ok (.str "acme")) :=
  ⟨by decide, from_api_key_bootstrap rBad500W (by decide)⟩

/-- A 200 token-info response whose teams list has no entry matching
`selected_team.id`. -/
def tokenInfoNoMatchW : Response :=
  { status_code := 200,
    body := some (.obj [("selected_team", .obj [("id", .num 7)]),
                        ("teams", .arr [.obj [("id", .num 9), ("slug", .str "other")]])]),
    text := "" }

/-- The comprehension of `from_api_key` yields the empty list when no team
entry's id equals the selected id. -/
theorem matchingSlugs_no_match (tid : Json) (teams : List Json)
    (hnomatch : ∀ t ∈ teams, ∃ v, t.getKey "id" = .ok v ∧ v ≠ tid) :
    matchingSlugs teams tid = .ok [] := by
  induction teams with
  | nil => rfl
  | cons t rest ih =>
    obtain ⟨v, hv, hne⟩ := hnomatch t (by simp)
    have h2 := ih (fun t2 ht2 => hnomatch t2 (by simp [ht2]))
    simp [matchingSlugs, hv, hne, h2]

/-- C10: an API-key bootstrap receiving 200 whose teams list has no entry
with id equal to `selected_team.id` fails with the unguarded indexing
error of taking element 0 of the empty comprehension result — not with
`InvalidLogin` or any of the five named error kinds. -/
theorem from_api_key_no_matching_team (r : Response) (j sel tid : Json)
    (teams : List Json)
    (h200 : r.status_code = 200) (hb : r.body = some j)
    (hsel : j.getKey "selected_team" = .ok sel)
    (hid : sel.getKey "id" = .ok tid)
    (hteams : j.getKey "teams" = .ok (.arr teams))
    (hnomatch : ∀ t ∈ teams, ∃ v, t.getKey "id" = .ok v ∧ v ≠ tid) :
    Client.from_api_key r = .error .indexError := by
  have hslugs := matchingSlugs_no_match tid teams hnomatch
  simp [Client.from_api_key, h200, Response.json, hb, hsel, hid, hteams, hslugs]

theorem from_api_key_no_matching_team_witness :
    tokenInfoNoMatchW.status_code = 200 ∧
    Client.from_api_key tokenInfoNoMatchW = .error .indexError :=
  ⟨rfl,
   from_api_key_no_matching_team tokenInfoNoMatchW
     (.obj [("selected_team", .obj [("id", .num 7)]),
            ("teams", .arr [.obj [("id", .num 9), ("slug", .str "other")]])])
     (.obj [("id", .num 7)]) (.num 7)
     [.obj [("id", .num 9), ("slug", .str "other")]]
     rfl rfl rfl rfl rfl
     (by intro t ht
         simp only [List.mem_singleton] at ht
         exact ⟨.num 9, by simp [ht, Json.getKey], by simp [ht]⟩)⟩
